import Mathlib

/-
Verification of the Temporal Fusion Transformer implementation (tft_model.py).

Modelling conventions:
- Tensors are total index functions (Nat → ... → ℝ); the semantic dimensions
  are threaded explicitly, mirroring the .size(...) reads in the source.
  Out-of-range entries are junk and every theorem quantifies only over
  in-range indices.
- torch.view is row-major reshaping, modelled by explicit flat-index
  arithmetic (div / mod); a dimension given as -1 to view is inferred as
  numel divided by the product of the known dimensions, and we compute it
  by exactly that formula.
- Floating point is idealised as ℝ; the external tensor runtime primitives
  (nn.Linear, nn.Embedding, nn.Sigmoid, nn.ELU, nn.BatchNorm1d, nn.Dropout)
  are modelled by their documented mathematics, with dropout and batch
  normalization in evaluation mode (dropout is the identity, batch norm is
  the per-channel affine map using running statistics).
- The recurrent layers (nn.LSTM) and nn.MultiheadAttention are external
  collaborators; they appear as abstract function-valued parameters of the
  model, since no claim depends on their internals - only on how the model
  wires inputs, initial states and masks into them.
-/

noncomputable section

/-- Rank-3 tensor as a total index function. -/
abbrev Tensor3 : Type := ℕ → ℕ → ℕ → ℝ

/-- Rank-2 tensor as a total index function. -/
abbrev Tensor2 : Type := ℕ → ℕ → ℝ

/-- Python float truncation to int64, as used by Tensor.long():
rounds toward zero. -/
def truncInt (q : ℝ) : ℤ := if 0 ≤ q then ⌊q⌋ else ⌈q⌉

theorem truncInt_natCast (n : ℕ) : truncInt (n : ℝ) = n := by
  simp [truncInt]

/-- nn.Sigmoid: x ↦ 1 / (1 + exp (-x)). -/
def sigmoid (x : ℝ) : ℝ := 1 / (1 + Real.exp (-x))

/-- nn.ELU with the default alpha = 1: x for positive x, exp x - 1 otherwise. -/
def elu (x : ℝ) : ℝ := if 0 < x then x else Real.exp x - 1

/-- Parameters of an nn.Linear layer: weight matrix (out-index, in-index)
and bias vector. -/
structure LinParams where
  W : ℕ → ℕ → ℝ
  b : ℕ → ℝ

/-- nn.Linear with input width inF applied rowwise to a 2-D tensor
(rows × features): out row r, channel k is the affine map of row r. -/
def linMod (inF : ℕ) (p : LinParams) : Tensor2 → Tensor2 :=
  fun f r k => (∑ c ∈ Finset.range inF, p.W k c * f r c) + p.b k

/-- nn.Embedding lookup applied rowwise: the source feeds tensors of shape
(rows, 1) whose single column holds the (already .long()-truncated in the
caller, here truncated on the spot) category code; output channel c is the
table entry. -/
def embMod (table : ℤ → ℕ → ℝ) : Tensor2 → Tensor2 :=
  fun f r c => table (truncInt (f r 0)) c

/-- Parameters of the GLU block: two square nn.Linear layers. -/
structure GLUParams where
  fc1 : LinParams
  fc2 : LinParams

/-- GLU.forward applied rowwise (width inF):
sigmoid (fc1 x) * fc2 x, elementwise. -/
def gluMod (inF : ℕ) (g : GLUParams) : Tensor2 → Tensor2 :=
  fun f r k => sigmoid (linMod inF g.fc1 f r k) * linMod inF g.fc2 f r k

/-- Parameters of nn.BatchNorm1d: per-channel affine weights and running
statistics. -/
structure BNParams where
  gamma : ℕ → ℝ
  beta : ℕ → ℝ
  mean : ℕ → ℝ
  var : ℕ → ℝ

/-- nn.BatchNorm1d in evaluation mode, applied rowwise:
gamma * (x - running_mean) / sqrt (running_var + eps) + beta, with the
default eps = 1e-5. -/
def bnMod (p : BNParams) : Tensor2 → Tensor2 :=
  fun f r k => p.gamma k * ((f r k - p.mean k) / Real.sqrt (p.var k + 1 / 100000)) + p.beta k

/-- TimeDistributed.forward on a rank-3 input of semantic shape
(d0, d1, features), wrapping an arbitrary rowwise module:
  x_reshape = x.contiguous().view(-1, x.size(-1)) : flat row r holds the
    (r / d1, r % d1) slice of x (row-major);
  y = module x_reshape;
  batch_first: y.contiguous().view(x.size(0), -1, y.size(-1)) where the
    middle dimension is inferred as numel / (d0 * outF);
  default: y.view(-1, x.size(1), y.size(-1)).
(Rank ≤ 2 inputs take the early-return branch and apply the module
directly; every use in this file is on rank-3 data.) -/
def TimeDistributed.forward (module : Tensor2 → Tensor2) (batchFirst : Bool)
    (d0 d1 outF : ℕ) (x : Tensor3) : Tensor3 :=
  let xReshape : Tensor2 := fun r c => x (r / d1) (r % d1) c
  let y := module xReshape
  if batchFirst then
    fun b t c => y (b * ((d0 * d1 * outF) / (d0 * outF)) + t) c
  else
    fun a b c => y (a * d1 + b) c

/-- pytorch_quantile_loss on a rank-2 input (rows × last axis of width n):
validates the quantile, then returns per row the sum over the last axis of
  quantile * max (y - y_pred) 0 + (1 - quantile) * max (-(y - y_pred)) 0.
A raised ValueError is modelled as Except.error. -/
def pytorch_quantile_loss (n : ℕ) (y yPred : Tensor2) (quantile : ℝ) :
    Except String (ℕ → ℝ) :=
  if quantile < 0 ∨ 1 < quantile then
    Except.error "Illegal quantile value! Values should be between 0 and 1."
  else
    let predictionUnderflow : Tensor2 := fun r j => y r j - yPred r j
    let qLoss : Tensor2 := fun r j =>
      quantile * max (predictionUnderflow r j) 0 +
        (1 - quantile) * max (-predictionUnderflow r j) 0
    Except.ok (fun r => ∑ j ∈ Finset.range n, qLoss r j)

/-- torch.triu (torch.ones (sz, sz)): ones on and above the diagonal
(float entries, idealised as ℚ since only equality tests are applied). -/
def triuOnes (_sz : ℕ) : ℕ → ℕ → ℚ := fun i j => if i ≤ j then 1 else 0

/-- (torch.triu (torch.ones (sz, sz)) == 1).transpose (0, 1). -/
def boolMask (sz : ℕ) : ℕ → ℕ → Bool := fun i j => triuOnes sz j i == 1

/-- TFT._generate_square_subsequent_mask: the bool mask is floated, then
masked_fill (mask == 0, -inf) and masked_fill (mask == 1, 0.0); both fill
conditions read the bool tensor bound to the name mask on the right-hand
side. Values live in EReal so that -inf is representable. -/
def generate_square_subsequent_mask (sz : ℕ) : ℕ → ℕ → EReal :=
  fun i j =>
    let f : EReal := if boolMask sz i j then 1 else 0
    let f1 : EReal := if boolMask sz i j = false then ⊥ else f
    if boolMask sz i j = true then 0 else f1

/-- The context sub-layer of a GatedResidualNetwork: its input width
(hidden_context_size) and its nn.Linear parameters. Present exactly when
the network was constructed with hidden_context_size not None. -/
structure CtxLayer where
  size : ℕ
  lin : LinParams

/-- Parameters of a GatedResidualNetwork. The dropout probability is kept
for completeness; in evaluation mode dropout is the identity. -/
structure GRNParams where
  inputSize : ℕ
  outputSize : ℕ
  ctx : Option CtxLayer
  fc1 : LinParams
  fc2 : LinParams
  glu : GLUParams
  bn : BNParams
  dropoutP : ℝ

/-- First stage of GatedResidualNetwork.forward on a rank-3 input of
semantic shape (d0, d1, inputSize): x = self.fc1 x, and when a context
tensor is supplied (and the network has a context layer),
x = x + self.context context. fc1 and context are TimeDistributed
(default mode) nn.Linear layers. -/
def GatedResidualNetwork.preact (g : GRNParams) (d0 d1 : ℕ)
    (x : Tensor3) (context : Option Tensor3) : Tensor3 :=
  let a := TimeDistributed.forward (linMod g.inputSize g.fc1) false d0 d1 g.outputSize x
  match context, g.ctx with
  | some c, some cl =>
      fun i j k =>
        a i j k + TimeDistributed.forward (linMod cl.size cl.lin) false d0 d1 g.outputSize c i j k
  | _, _ => a

/-- Remaining stages of GatedResidualNetwork.forward applied to the
pre-activation a with residual input x:
elu, fc2, dropout (identity in evaluation mode), GLU gate, residual add,
batch norm - each affine/gating layer TimeDistributed in default mode. -/
def GatedResidualNetwork.post (g : GRNParams) (d0 d1 : ℕ)
    (residual : Tensor3) (a : Tensor3) : Tensor3 :=
  let e : Tensor3 := fun i j k => elu (a i j k)
  let f2 := TimeDistributed.forward (linMod g.inputSize g.fc2) false d0 d1 g.outputSize e
  let gated := TimeDistributed.forward (gluMod g.inputSize g.glu) false d0 d1 g.inputSize f2
  let r : Tensor3 := fun i j k => gated i j k + residual i j k
  TimeDistributed.forward (bnMod g.bn) false d0 d1 g.inputSize r

/-- GatedResidualNetwork.forward: residual = x; pre-activation (fc1 plus
optional additive context injection); then elu1, fc2, dropout, gate,
residual add and batch norm. -/
def GatedResidualNetwork.forward (g : GRNParams) (d0 d1 : ℕ)
    (x : Tensor3) (context : Option Tensor3) : Tensor3 :=
  GatedResidualNetwork.post g d0 d1 x (GatedResidualNetwork.preact g d0 d1 x context)

/-- Parameters and collaborator functions of the TFT model. Learned
layers that live in the source (embedding tables, per-variable linear
embeddings, the two GRNs, the output layer) carry explicit parameters;
the external nn.LSTM and nn.MultiheadAttention collaborators are abstract
functions (input, h0, c0) ↦ (output, (hn, cn)) and
(query, key, value, mask) ↦ (output, weights). -/
structure TFTParams where
  batchSize : ℕ
  staticVariables : ℕ
  encodeLength : ℕ
  timeVaryingCategoricalVariables : ℕ
  timeVaryingRealVariables : ℕ
  hiddenSize : ℕ
  lstmLayers : ℕ
  embeddingDim : ℕ
  attnHeads : ℕ
  staticTable : ℕ → ℤ → ℕ → ℝ
  tvTable : ℕ → ℤ → ℕ → ℝ
  tvLinear : ℕ → LinParams
  lstmEncoder : Tensor3 → Tensor3 → Tensor3 → Tensor3 × Tensor3 × Tensor3
  lstmDecoder : Tensor3 → Tensor3 → Tensor3 → Tensor3 × Tensor3 × Tensor3
  staticEnrichment : GRNParams
  posWiseFF : GRNParams
  multiheadAttn : Tensor3 → Tensor3 → Tensor3 → (ℕ → ℕ → EReal) → Tensor3 × Tensor3
  outputLayer : LinParams

/-- TFT.init_hidden: torch.zeros (lstm_layers, batch_size, hidden_size). -/
def TFT.init_hidden (_p : TFTParams) : Tensor3 := fun _ _ _ => 0

/-- TFT.encode: default the hidden state to zeros, run the encoder LSTM
with initial state tuple (hidden, hidden), return (output, hidden) -
the final cell state is dropped. -/
def TFT.encode (p : TFTParams) (x : Tensor3) (hidden : Option Tensor3) :
    Tensor3 × Tensor3 :=
  let h := hidden.getD (TFT.init_hidden p)
  let r := p.lstmEncoder x h h
  (r.1, r.2.1)

/-- TFT.decode: same as TFT.encode but with the decoder LSTM. -/
def TFT.decode (p : TFTParams) (x : Tensor3) (hidden : Option Tensor3) :
    Tensor3 × Tensor3 :=
  let h := hidden.getD (TFT.init_hidden p)
  let r := p.lstmDecoder x h h
  (r.1, r.2.1)

/-- torch.cat of n equal-width-w rank-3 tensors along dim 2. -/
def catDim2 (w : ℕ) (vecs : ℕ → Tensor3) : Tensor3 :=
  fun b t c => vecs (c / w) b t (c % w)

/-- TFT.apply_embedding on an input window x of semantic shape
(B, T, features) and a precomputed static embedding of shape
(B, staticVariables * embeddingDim):
- per real variable i: x[:, :, i].view (B, T, 1) through the
  TimeDistributed (batch_first) nn.Linear (1, embeddingDim); cat on dim 2;
- per categorical variable i: x[:, :, nReal + i].view (B, T, 1).long()
  through the TimeDistributed (batch_first) nn.Embedding; cat on dim 2;
- static: torch.cat (T * [static_embedding]) stacks T copies along dim 0
  (flat row r is static_embedding row r % B), then .view (B, T, -1);
- concatenate [static, categorical, real] along dim 2;
- return embeddings.view (-1, B, channels): a row-major reshape (not a
  transpose) whose entry (t, b) is flat row t * B + b of embeddings. -/
def TFT.apply_embedding (p : TFTParams) (B T : ℕ) (x : Tensor3)
    (staticEmbedding : Tensor2) : Tensor3 :=
  let E := p.embeddingDim
  let realEmbedding := catDim2 E (fun i =>
    TimeDistributed.forward (linMod 1 (p.tvLinear i)) true B T E
      (fun b t _ => x b t i))
  let catEmbedding := catDim2 E (fun i =>
    TimeDistributed.forward (embMod (p.tvTable i)) true B T E
      (fun b t _ => x b t (p.timeVaryingRealVariables + i)))
  let SE := E * p.staticVariables
  let staticRepeated : Tensor2 := fun r c => staticEmbedding (r % B) c
  let static3 : Tensor3 := fun b t c => staticRepeated (b * T + t) c
  let embeddings : Tensor3 := fun b t c =>
    if c < SE then static3 b t c
    else if c < SE + E * p.timeVaryingCategoricalVariables then
      catEmbedding b t (c - SE)
    else
      realEmbedding b t (c - (SE + E * p.timeVaryingCategoricalVariables))
  fun t b c => embeddings ((t * B + b) / T) ((t * B + b) % T) c

/-- The static embedding computed at the top of TFT.forward: per static
variable i, the embedding of identifier[:, 0, i].long(), concatenated
along dim 1 (each slice of width embeddingDim). -/
def TFT.staticEmbedOf (p : TFTParams) (identifier : Tensor3) : Tensor2 :=
  fun b c =>
    p.staticTable (c / p.embeddingDim)
      (truncInt (identifier b 0 (c / p.embeddingDim))) (c % p.embeddingDim)

/-- The 5-tuple returned by TFT.forward, as a record, together with the
inferred time-axis length of the forecast output (the middle dimension
produced by the final view / output-layer reshapes). -/
structure TFTOutput where
  output : Tensor3
  outputTimeLen : ℕ
  encoder_output : Tensor3
  decoder_output : Tensor3
  attn_output : Tensor3
  attn_output_weights : Tensor3

/-- TFT.forward after the recurrent stage (source lines 231-243), given
the encoder/decoder window lengths, their LSTM outputs and the static
embedding:
- lstm_output = torch.cat ([encoder_output, decoder_output], dim 0);
- static_embedding = torch.cat (Ttot * [static]).view (Ttot, B, -1);
- attn_input = static_enrichment GRN (lstm_output, context static);
- mask = _generate_square_subsequent_mask Ttot;
- attention (query attn_input, key attn_input, value lstm_output, mask);
- attn_output = attn_output[encode_length:, :, :];
- output = output_layer (attn_output.view (batch_size, -1, hidden_size)),
  the output layer being TimeDistributed (batch_first) nn.Linear (H, 1);
  the -1 dimensions are inferred as numel over the known dimensions. -/
def TFT.forwardTail (p : TFTParams) (encLen decLen : ℕ)
    (encoderOutput decoderOutput : Tensor3) (staticEmbedding : Tensor2) :
    TFTOutput :=
  let B := p.batchSize
  let H := p.hiddenSize
  let Ttot := encLen + decLen
  let lstmOutput : Tensor3 := fun t b c =>
    if t < encLen then encoderOutput t b c else decoderOutput (t - encLen) b c
  let staticBig : Tensor3 := fun t b c => staticEmbedding ((t * B + b) % B) c
  let attnInput :=
    GatedResidualNetwork.forward p.staticEnrichment Ttot B lstmOutput (some staticBig)
  let mask := generate_square_subsequent_mask Ttot
  let ar := p.multiheadAttn attnInput attnInput lstmOutput mask
  let attnSliced : Tensor3 := fun t b c => ar.1 (p.encodeLength + t) b c
  let sliceLen := Ttot - p.encodeLength
  let mid := (sliceLen * B * H) / (B * H)
  let reshaped : Tensor3 := fun b t c =>
    let k := b * (mid * H) + t * H + c
    attnSliced (k / (B * H)) ((k % (B * H)) / H) (k % H)
  { output := TimeDistributed.forward (linMod H p.outputLayer) true B mid 1 reshaped
    outputTimeLen := (B * mid * 1) / (B * 1)
    encoder_output := encoderOutput
    decoder_output := decoderOutput
    attn_output := attnSliced
    attn_output_weights := ar.2 }

/-- TFT.forward on an input batch of semantic shape (batch_size, T, F):
static embedding from identifier[:, 0, :]; apply_embedding on the
encoder window inputs[:, :encode_length, :] and the decoder window
inputs[:, encode_length:, :]; encode (zero-initialised), decode
(initialised with the encoder final hidden state); then the attention
tail. -/
def TFT.forward (p : TFTParams) (T : ℕ) (inputs identifier : Tensor3) :
    TFTOutput :=
  let staticEmbedding := TFT.staticEmbedOf p identifier
  let encLen := min p.encodeLength T
  let decLen := T - p.encodeLength
  let embeddingsEncoder :=
    TFT.apply_embedding p p.batchSize encLen (fun b t c => inputs b t c) staticEmbedding
  let embeddingsDecoder :=
    TFT.apply_embedding p p.batchSize decLen
      (fun b t c => inputs b (p.encodeLength + t) c) staticEmbedding
  let eo := TFT.encode p embeddingsEncoder none
  let dd := TFT.decode p embeddingsDecoder (some eo.2)
  TFT.forwardTail p encLen decLen eo.1 dd.1 staticEmbedding

/-! Concrete parameter instances used by witnesses and counterexamples. -/

/-- All-zero linear layer. -/
def linZero : LinParams := ⟨fun _ _ => 0, fun _ => 0⟩

/-- Linear layer with unit weights and zero bias. -/
def linOne : LinParams := ⟨fun _ _ => 1, fun _ => 0⟩

/-- GLU whose gate branch is the zero affine map (so the gate is
sigmoid 0 = 1/2) and whose linear branch is the unit layer. -/
def gluHalf : GLUParams := ⟨linZero, linOne⟩

/-- Batch-norm parameters with unit weight, zero shift and running
statistics mean 0, variance 1. -/
def bnUnit : BNParams := ⟨fun _ => 1, fun _ => 0, fun _ => 0, fun _ => 1⟩

/-- Width-1 GRN whose context layer has zero weights but bias 1. -/
def grnCex : GRNParams :=
  { inputSize := 1, outputSize := 1,
    ctx := some ⟨1, ⟨fun _ _ => 0, fun _ => 1⟩⟩,
    fc1 := linOne, fc2 := linOne, glu := gluHalf, bn := bnUnit,
    dropoutP := 1 / 10 }

/-- The same GRN but with a zero-bias context layer. -/
def grnOkCtx : GRNParams := { grnCex with ctx := some ⟨1, linZero⟩ }

/-- Width-1 context-free GRN. -/
def grnPlain : GRNParams := { grnCex with ctx := none }

/-- A small concrete TFT parameter record: batch 2, one variable of each
kind, all widths 1, with the categorical table returning the code itself
and identity-shaped LSTM / attention collaborators. -/
def tftP : TFTParams :=
  { batchSize := 2, staticVariables := 1, encodeLength := 1,
    timeVaryingCategoricalVariables := 1, timeVaryingRealVariables := 1,
    hiddenSize := 1, lstmLayers := 1, embeddingDim := 1, attnHeads := 1,
    staticTable := fun _ _ _ => 0,
    tvTable := fun _ z _ => (z : ℝ),
    tvLinear := fun _ => linZero,
    lstmEncoder := fun x h c => (x, h, c),
    lstmDecoder := fun x h c => (x, h, c),
    staticEnrichment := grnCex,
    posWiseFF := grnPlain,
    multiheadAttn := fun q _ v _ => (q, v),
    outputLayer := linZero }

/-- Variant of tftP with encode_length 5 and batch 1. -/
def tftP7 : TFTParams := { tftP with batchSize := 1, encodeLength := 5 }

/-- Concrete input window whose entry at (b, t, any channel) is
2 b + 3 t, so that distinct (batch, time) positions carry distinct
category codes. -/
def xC1 : Tensor3 := fun b t _ => ((2 * b + 3 * t : ℕ) : ℝ)

/-- Identifier tensors agreeing at time 0 and differing later. -/
def idA : Tensor3 := fun _ t _ => (t : ℝ)

/-- Second identifier tensor: equals idA at time index 0 only. -/
def idB : Tensor3 := fun _ t _ => 2 * (t : ℝ)

/-- Encoder collaborator whose cell output is the constant-1 tensor. -/
def enc1 : Tensor3 → Tensor3 → Tensor3 → Tensor3 × Tensor3 × Tensor3 :=
  fun x h _ => (x, h, fun _ _ _ => 1)

/-- Encoder collaborator whose cell output is the constant-2 tensor:
agrees with enc1 on the output and hidden components. -/
def enc2 : Tensor3 → Tensor3 → Tensor3 → Tensor3 × Tensor3 × Tensor3 :=
  fun x h _ => (x, h, fun _ _ _ => 2)

/-- A simple decoder collaborator. -/
def dec0 : Tensor3 → Tensor3 → Tensor3 → Tensor3 × Tensor3 × Tensor3 :=
  fun x h _ => (x, h, h)

/-! Theorems. -/

/-- C3: for every pair of equally shaped arrays y and y_pred and every
quantile q in [0, 1], the quantile loss returns, per row, the sum over
the last axis of q * max (y - y_pred) 0 + (1 - q) * max (y_pred - y) 0. -/
theorem quantile_loss_formula (n : ℕ) (y yPred : Tensor2) (q : ℝ)
    (h0 : 0 ≤ q) (h1 : q ≤ 1) :
    pytorch_quantile_loss n y yPred q =
      Except.ok (fun r => ∑ j ∈ Finset.range n,
        (q * max (y r j - yPred r j) 0 + (1 - q) * max (yPred r j - y r j) 0)) := by
  unfold pytorch_quantile_loss
  rw [if_neg (by push_neg; exact ⟨h0, h1⟩)]
  simp [neg_sub]

theorem quantile_loss_formula_witness :
    (0 : ℝ) ≤ 1 / 2 ∧ (1 / 2 : ℝ) ≤ 1 ∧
    pytorch_quantile_loss 1 (fun _ _ => 3) (fun _ _ => 1) (1 / 2) =
      Except.ok (fun r => ∑ j ∈ Finset.range 1,
        ((1 / 2 : ℝ) * max ((3 : ℝ) - 1) 0 + (1 - 1 / 2) * max ((1 : ℝ) - 3) 0)) :=
  ⟨by norm_num, by norm_num,
    quantile_loss_formula 1 (fun _ _ => 3) (fun _ _ => 1) (1 / 2)
      (by norm_num) (by norm_num)⟩

/-- C4: the quantile loss raises a ValueError if and only if the quantile
is outside [0, 1]; in particular it raises for -0.1 and for 1.1. -/
theorem quantile_loss_validation :
    (∀ (n : ℕ) (y yPred : Tensor2) (q : ℝ),
        (∃ msg, pytorch_quantile_loss n y yPred q = Except.error msg) ↔
          (q < 0 ∨ 1 < q)) ∧
    (∃ msg, pytorch_quantile_loss 1 (fun _ _ => 0) (fun _ _ => 0) (-(1 / 10)) =
        Except.error msg) ∧
    (∃ msg, pytorch_quantile_loss 1 (fun _ _ => 0) (fun _ _ => 0) (11 / 10) =
        Except.error msg) := by
  refine ⟨fun n y yPred q => ?_, ?_, ?_⟩
  · by_cases h : q < 0 ∨ 1 < q
    · simp [pytorch_quantile_loss, h]
    · simp [pytorch_quantile_loss, h]
  · exact ⟨"Illegal quantile value! Values should be between 0 and 1.",
      by norm_num [pytorch_quantile_loss]⟩
  · exact ⟨"Illegal quantile value! Values should be between 0 and 1.",
      by norm_num [pytorch_quantile_loss]⟩

/-- C8: the causal mask has entry (i, j) equal to negative infinity when
j > i and 0 when j ≤ i, for all in-range indices. -/
theorem mask_entries (sz i j : ℕ) (hi : i < sz) (hj : j < sz) :
    generate_square_subsequent_mask sz i j = if i < j then (⊥ : EReal) else 0 := by
  by_cases h : j ≤ i
  · simp [generate_square_subsequent_mask, boolMask, triuOnes, h, Nat.not_lt.mpr h]
  · have h' : i < j := Nat.not_le.mp h
    simp [generate_square_subsequent_mask, boolMask, triuOnes, h, h']

theorem mask_entries_witness :
    1 < 4 ∧ 2 < 4 ∧ generate_square_subsequent_mask 4 1 2 = (⊥ : EReal) := by
  refine ⟨by norm_num, by norm_num, ?_⟩
  have h := mask_entries 4 1 2 (by norm_num) (by norm_num)
  simpa using h

/-- C9: the TimeDistributed wrapper around the identity transformation,
applied to a rank-3 input, returns a tensor identical in values (for all
in-range indices) and in shape (the inferred view dimensions reproduce
the input dimensions), in both the batch-first and the default
restoration mode. -/
theorem timeDistributed_identity (d0 d1 F : ℕ) (x : Tensor3) (b t c : ℕ)
    (hb : b < d0) (ht : t < d1) (hc : c < F) (hF : 0 < F) :
    TimeDistributed.forward (fun y => y) true d0 d1 F x b t c = x b t c ∧
    TimeDistributed.forward (fun y => y) false d0 d1 F x b t c = x b t c ∧
    (d0 * d1 * F) / (d0 * F) = d1 ∧ (d0 * d1 * F) / (d1 * F) = d0 := by
  have hd0 : 0 < d0 := lt_of_le_of_lt (Nat.zero_le b) hb
  have hd1 : 0 < d1 := lt_of_le_of_lt (Nat.zero_le t) ht
  have hm1 : (d0 * d1 * F) / (d0 * F) = d1 := by
    rw [show d0 * d1 * F = (d0 * F) * d1 by ring]
    exact Nat.mul_div_cancel_left d1 (by positivity)
  have hm2 : (d0 * d1 * F) / (d1 * F) = d0 := by
    rw [show d0 * d1 * F = (d1 * F) * d0 by ring]
    exact Nat.mul_div_cancel_left d0 (by positivity)
  have e1 : (b * d1 + t) / d1 = b := by
    rw [Nat.mul_comm, Nat.mul_add_div hd1, Nat.div_eq_of_lt ht, Nat.add_zero]
  have e2 : (b * d1 + t) % d1 = t := by
    rw [Nat.mul_comm, Nat.mul_add_mod, Nat.mod_eq_of_lt ht]
  refine ⟨?_, ?_, hm1, hm2⟩
  · simp [TimeDistributed.forward, hm1, e1, e2]
  · simp [TimeDistributed.forward, e1, e2]

theorem timeDistributed_identity_witness :
    1 < 2 ∧ 2 < 3 ∧ 0 < 1 ∧
    TimeDistributed.forward (fun y => y) true 2 3 1
      (fun i j _ => (i : ℝ) + 10 * j) 1 2 0 = 21 := by
  refine ⟨by norm_num, by norm_num, by norm_num, ?_⟩
  have h := (timeDistributed_identity 2 3 1 (fun i j _ => (i : ℝ) + 10 * j) 1 2 0
    (by norm_num) (by norm_num) (by norm_num) (by norm_num)).1
  norm_num at h
  exact h

/-- C2 (amended): calling the GRN with no context produces the same output
as calling it with an all-zero context tensor provided the context layer
has a zero bias vector; in general a zero context still injects the
context-layer bias before the activation. -/
theorem grn_none_eq_zero_context (g : GRNParams) (cl : CtxLayer) (d0 d1 : ℕ)
    (x : Tensor3) (hc : g.ctx = some cl) (hb : ∀ k, cl.lin.b k = 0) :
    GatedResidualNetwork.forward g d0 d1 x none =
      GatedResidualNetwork.forward g d0 d1 x (some fun _ _ _ => 0) := by
  have hpre : GatedResidualNetwork.preact g d0 d1 x (some fun _ _ _ => 0) =
      GatedResidualNetwork.preact g d0 d1 x none := by
    unfold GatedResidualNetwork.preact
    rw [hc]
    funext i j k
    have hX : TimeDistributed.forward (linMod cl.size cl.lin) false d0 d1
        g.outputSize (fun _ _ _ => 0) i j k = 0 := by
      simp [TimeDistributed.forward, linMod, hb]
    simp [hX]
  unfold GatedResidualNetwork.forward
  rw [hpre]

theorem grn_none_eq_zero_context_witness :
    grnOkCtx.ctx = some ⟨1, linZero⟩ ∧ (∀ k, linZero.b k = 0) ∧
    GatedResidualNetwork.forward grnOkCtx 1 1 (fun _ _ _ => 1) none =
      GatedResidualNetwork.forward grnOkCtx 1 1 (fun _ _ _ => 1) (some fun _ _ _ => 0) :=
  ⟨rfl, fun _ => rfl,
    grn_none_eq_zero_context grnOkCtx ⟨1, linZero⟩ 1 1 (fun _ _ _ => 1) rfl (fun _ => rfl)⟩

/-- C2 (counterexample): with a context layer of zero weights but bias 1,
the GRN output on the all-ones width-1 input differs between no context
and an all-zero context tensor, refuting the claim as stated. -/
theorem grn_zero_context_counterexample :
    GatedResidualNetwork.forward grnCex 1 1 (fun _ _ _ => 1) none ≠
      GatedResidualNetwork.forward grnCex 1 1 (fun _ _ _ => 1) (some fun _ _ _ => 0) := by
  intro h
  have h0 := congrFun (congrFun (congrFun h 0) 0) 0
  norm_num [GatedResidualNetwork.forward, GatedResidualNetwork.preact,
    GatedResidualNetwork.post, TimeDistributed.forward, linMod, gluMod, bnMod,
    elu, sigmoid, grnCex, linOne, linZero, gluHalf, bnUnit,
    Finset.sum_range_one, Real.exp_zero] at h0
  have hs : (Real.sqrt 100001 / Real.sqrt 100000) ≠ 0 := by positivity
  have h1 := (div_left_inj' hs).mp h0
  norm_num at h1

/-- C1 (code evidence): at batch 2, time 2, one variable of each kind and
embedding width 1, the apply_embedding output entry at (time 0, batch 1)
in the categorical channel is the categorical embedding of batch 0 at
time 1 (value 3 = code of x[0, 1]), not the categorical embedding of
batch 1 at time 0 (value 2 = code of x[1, 0]) that the claimed
(time, batch, channel) reordering would place there: the final
view (-1, B, C) is a row-major reshape, not a transpose. -/
theorem apply_embedding_scrambles :
    TFT.apply_embedding tftP 2 2 xC1 (fun _ _ => 0) 0 1 1 = 3 ∧
    tftP.tvTable 0 (truncInt (xC1 1 0 1)) 0 = 2 ∧ (3 : ℝ) ≠ 2 := by
  refine ⟨?_, ?_, by norm_num⟩
  · norm_num [TFT.apply_embedding, TimeDistributed.forward, embMod, linMod,
      catDim2, tftP, xC1, truncInt, Int.floor_ofNat]
  · norm_num [tftP, xC1, truncInt, Int.floor_ofNat]

/-- C5: the pos_wise_ff module is constructed but never invoked in the
forward pass; the returned 5-tuple is unchanged under any change to its
parameters. -/
theorem pos_wise_ff_unused (p : TFTParams) (pw1 pw2 : GRNParams) (T : ℕ)
    (inputs identifier : Tensor3) :
    TFT.forward { p with posWiseFF := pw1 } T inputs identifier =
      TFT.forward { p with posWiseFF := pw2 } T inputs identifier := rfl

/-- C6: the forward pass reads only the first timestep slice of the
identifier array: inputs agreeing there (and on inputs) give identical
outputs. -/
theorem identifier_first_timestep_only (p : TFTParams) (T : ℕ)
    (inputs id1 id2 : Tensor3)
    (h : ∀ b i, id1 b 0 i = id2 b 0 i) :
    TFT.forward p T inputs id1 = TFT.forward p T inputs id2 := by
  have hs : TFT.staticEmbedOf p id1 = TFT.staticEmbedOf p id2 := by
    funext b c
    unfold TFT.staticEmbedOf
    rw [h b (c / p.embeddingDim)]
  unfold TFT.forward
  rw [hs]

theorem identifier_first_timestep_only_witness :
    TFT.forward tftP 2 (fun _ _ _ => 1) idA = TFT.forward tftP 2 (fun _ _ _ => 1) idB :=
  identifier_first_timestep_only tftP 2 (fun _ _ _ => 1) idA idB
    (fun b i => by simp [idA, idB])

/-- C7: when the total time length T exceeds encode_length, the forecast
output time-axis length inferred by the output-stage views equals
T - encode_length: the first encode_length positions of the attended
output are discarded before the output projection. -/
theorem forecast_length (p : TFTParams) (T : ℕ) (inputs identifier : Tensor3)
    (hT : p.encodeLength < T) (hB : 0 < p.batchSize) (hH : 0 < p.hiddenSize) :
    (TFT.forward p T inputs identifier).outputTimeLen = T - p.encodeLength := by
  have hmin : min p.encodeLength T = p.encodeLength := Nat.min_eq_left (Nat.le_of_lt hT)
  simp only [TFT.forward, TFT.forwardTail]
  rw [hmin]
  have hTtot : p.encodeLength + (T - p.encodeLength) - p.encodeLength
      = T - p.encodeLength := by omega
  rw [hTtot]
  have h1 : (T - p.encodeLength) * p.batchSize * p.hiddenSize
      = (p.batchSize * p.hiddenSize) * (T - p.encodeLength) := by ring
  rw [h1, Nat.mul_div_cancel_left _ (by positivity)]
  rw [Nat.mul_one, Nat.mul_one]
  exact Nat.mul_div_cancel_left _ hB

theorem forecast_length_witness :
    tftP7.encodeLength < 8 ∧ 0 < tftP7.batchSize ∧ 0 < tftP7.hiddenSize ∧
    (TFT.forward tftP7 8 (fun _ _ _ => 0) (fun _ _ _ => 0)).outputTimeLen = 3 := by
  refine ⟨by norm_num [tftP7, tftP], by norm_num [tftP7, tftP],
    by norm_num [tftP7, tftP], ?_⟩
  have h := forecast_length tftP7 8 (fun _ _ _ => 0) (fun _ _ _ => 0)
    (by norm_num [tftP7, tftP]) (by norm_num [tftP7, tftP]) (by norm_num [tftP7, tftP])
  norm_num [tftP7, tftP] at h
  exact h

/-- C10: the LSTM initial state tuples always have cell state equal to
hidden state - the encoder starts from (zeros, zeros), the decoder from
(h, h) with h the encoder final hidden state - and the encoder final
cell state is discarded: encoders agreeing on output and hidden
components (and decoders agreeing on output at equal hidden/cell
arguments) give identical forward outputs. -/
theorem lstm_state_wiring (p : TFTParams)
    (e1 e2 d1 d2 : Tensor3 → Tensor3 → Tensor3 → Tensor3 × Tensor3 × Tensor3)
    (T : ℕ) (inputs identifier : Tensor3)
    (he : ∀ x, (e1 x (TFT.init_hidden p) (TFT.init_hidden p)).1 =
               (e2 x (TFT.init_hidden p) (TFT.init_hidden p)).1 ∧
               (e1 x (TFT.init_hidden p) (TFT.init_hidden p)).2.1 =
               (e2 x (TFT.init_hidden p) (TFT.init_hidden p)).2.1)
    (hd : ∀ x h, (d1 x h h).1 = (d2 x h h).1) :
    (∀ x, TFT.encode p x none =
      ((p.lstmEncoder x (TFT.init_hidden p) (TFT.init_hidden p)).1,
       (p.lstmEncoder x (TFT.init_hidden p) (TFT.init_hidden p)).2.1)) ∧
    (∀ x h, TFT.decode p x (some h) =
      ((p.lstmDecoder x h h).1, (p.lstmDecoder x h h).2.1)) ∧
    TFT.forward { p with lstmEncoder := e1, lstmDecoder := d1 } T inputs identifier =
      TFT.forward { p with lstmEncoder := e2, lstmDecoder := d2 } T inputs identifier := by
  refine ⟨fun x => rfl, fun x h => rfl, ?_⟩
  set SE := TFT.staticEmbedOf p identifier with hSE
  set embE := TFT.apply_embedding p p.batchSize (min p.encodeLength T)
    (fun b t c => inputs b t c) SE with hembE
  set embD := TFT.apply_embedding p p.batchSize (T - p.encodeLength)
    (fun b t c => inputs b (p.encodeLength + t) c) SE with hembD
  set z := TFT.init_hidden p with hz
  have L1 : TFT.forward { p with lstmEncoder := e1, lstmDecoder := d1 } T inputs identifier
      = TFT.forwardTail p (min p.encodeLength T) (T - p.encodeLength)
          (e1 embE z z).1 (d1 embD (e1 embE z z).2.1 (e1 embE z z).2.1).1 SE := rfl
  have L2 : TFT.forward { p with lstmEncoder := e2, lstmDecoder := d2 } T inputs identifier
      = TFT.forwardTail p (min p.encodeLength T) (T - p.encodeLength)
          (e2 embE z z).1 (d2 embD (e2 embE z z).2.1 (e2 embE z z).2.1).1 SE := rfl
  rw [L1, L2, (he embE).1, (he embE).2, hd embD ((e2 embE z z).2.1)]

theorem lstm_state_wiring_witness :
    TFT.forward { tftP with lstmEncoder := enc1, lstmDecoder := dec0 } 2
        (fun _ _ _ => 1) (fun _ _ _ => 0) =
      TFT.forward { tftP with lstmEncoder := enc2, lstmDecoder := dec0 } 2
        (fun _ _ _ => 1) (fun _ _ _ => 0) :=
  (lstm_state_wiring tftP enc1 enc2 dec0 dec0 2 (fun _ _ _ => 1) (fun _ _ _ => 0)
    (fun _ => ⟨rfl, rfl⟩) (fun _ _ => rfl)).2.2
